import Mathlib

/-!
Verification of the Platform Availability Checker of the Tricord bot
(src/main.py). The component under study is `SearchCog.check_platform`,
a per-platform username-availability lookup guarded by an in-memory cache
with a fixed TTL of 3600 seconds.

The embedding makes the effects explicit:
* the network is an oracle `Request → NetResponse`;
* the cache is a map `(platform, username) → Option (timestamp, Bool)`;
* `check_platform` returns the Python result (`Except Unit (Option Bool)`,
  where `Except.error` models an uncaught Python exception such as the
  `KeyError` from `self.bot.platforms[platform]`, `some true` models
  available, `some false` taken and `none` the `None` returned on a
  caught transport error), the cache after the call, and the list of
  outbound HTTP requests issued during the call.
-/

namespace Tricord

/-- An outbound HTTP GET request: the URL and whether redirects are
followed (`aiohttp` follows them by default; the code passes
`allow_redirects=False` in the instagram and default branches). -/
structure Request where
  url : String
  allowRedirects : Bool
deriving DecidableEq, Repr

/-- What the transport returns for a request: an HTTP status code, or a
transport-layer failure (`aiohttp.ClientError` / `asyncio.TimeoutError`). -/
inductive NetResponse where
  | status (code : Nat)
  | transportFailure
deriving DecidableEq, Repr

/-- Static per-platform metadata, one row of `SearchBot.platforms`. -/
structure PlatformData where
  url : String
  regex : String
deriving DecidableEq, Repr

/-- The `SearchBot.platforms` table (src/main.py lines 29-39). -/
def platforms : List (String × PlatformData) :=
  [ ("facebook", ⟨"https://facebook.com/", "^[a-zA-Z0-9.]+$"⟩),
    ("twitter", ⟨"https://twitter.com/", "^[A-Za-z0-9_]\x7b1,15\x7d$"⟩),
    ("instagram", ⟨"https://instagram.com/", "^[A-Za-z0-9_.]\x7b1,30\x7d$"⟩),
    ("linkedin", ⟨"https://linkedin.com/in/", "^[a-zA-Z0-9-]\x7b5,30\x7d$"⟩),
    ("github", ⟨"https://github.com/", "^[a-zA-Z0-9-]\x7b1,39\x7d$"⟩),
    ("youtube", ⟨"https://youtube.com/@", "^[a-zA-Z0-9-]\x7b3,30\x7d$"⟩),
    ("twitch", ⟨"https://twitch.tv/", "^[a-zA-Z0-9_]\x7b4,25\x7d$"⟩),
    ("tiktok", ⟨"https://tiktok.com/@", "^[a-zA-Z0-9_.]\x7b2,24\x7d$"⟩),
    ("reddit", ⟨"https://reddit.com/user/", "^[a-zA-Z0-9_-]\x7b3,20\x7d$"⟩) ]

/-- The cache of `SearchCog`: a map from `(platform, username)` to the
stored `(timestamp, available)` pair; `none` means no entry. -/
def Cache : Type := String × String → Option (Int × Bool)

/-- `self.cache[cache_key] = (current_time, available)`: Python dict
assignment, overwriting any prior entry for that key. -/
def Cache.set (c : Cache) (k : String × String) (v : Int × Bool) : Cache :=
  fun k' => if k' = k then some v else c k'

/-- An empty cache, the state of a fresh `SearchCog`. -/
def emptyCache : Cache := fun _ => none

/-- `self.cache_ttl = 3600` (src/main.py line 69). -/
def cache_ttl : Int := 3600

/-- The body of the `try` block of `check_platform` (src/main.py lines
81-106): the platform-specific lookup, the cache update on success, and
the conversion of transport failures to `None`. The third component of
the result lists the outbound requests issued. The default branch first
indexes `self.bot.platforms[platform]`, which raises an uncaught
`KeyError` (modelled as `Except.error ()`) when the platform is not in
the table. -/
def check_platform_try (net : Request → NetResponse) (cache : Cache)
    (current_time : Int) (platform username : String) :
    Except Unit (Option Bool) × Cache × List Request :=
  if platform = "github" then
    match net ⟨"https://api.github.com/users/" ++ username, true⟩ with
    | NetResponse.status s =>
        (Except.ok (some (s == 404)),
         Cache.set cache (platform, username) (current_time, s == 404),
         [⟨"https://api.github.com/users/" ++ username, true⟩])
    | NetResponse.transportFailure =>
        (Except.ok none, cache, [⟨"https://api.github.com/users/" ++ username, true⟩])
  else if platform = "instagram" then
    match net ⟨"https://www.instagram.com/" ++ username ++ "/", false⟩ with
    | NetResponse.status s =>
        (Except.ok (some (s == 404 || s == 302)),
         Cache.set cache (platform, username) (current_time, s == 404 || s == 302),
         [⟨"https://www.instagram.com/" ++ username ++ "/", false⟩])
    | NetResponse.transportFailure =>
        (Except.ok none, cache, [⟨"https://www.instagram.com/" ++ username ++ "/", false⟩])
  else
    match platforms.lookup platform with
    | none => (Except.error (), cache, [])
    | some data =>
        match net ⟨data.url ++ username, false⟩ with
        | NetResponse.status s =>
            (Except.ok (some (s == 404)),
             Cache.set cache (platform, username) (current_time, s == 404),
             [⟨data.url ++ username, false⟩])
        | NetResponse.transportFailure =>
            (Except.ok none, cache, [⟨data.url ++ username, false⟩])

/-- `SearchCog.check_platform` (src/main.py lines 71-106): consult the
cache first and return a fresh entry immediately; otherwise run the
platform-specific lookup of `check_platform_try`. -/
def check_platform (net : Request → NetResponse) (cache : Cache)
    (current_time : Int) (platform username : String) :
    Except Unit (Option Bool) × Cache × List Request :=
  match cache (platform, username) with
  | some (cached_time, available) =>
      if current_time - cached_time < cache_ttl then
        (Except.ok (some available), cache, [])
      else
        check_platform_try net cache current_time platform username
  | none => check_platform_try net cache current_time platform username

/-- The cache gate falls through to the network: either there is no entry
for the key, or the entry is at least `cache_ttl` old. -/
def cacheMissOrStale (cache : Cache) (current_time : Int)
    (k : String × String) : Prop :=
  match cache k with
  | none => True
  | some (cached_time, _) => cache_ttl ≤ current_time - cached_time

/-- A network oracle that answers every request with the given status. -/
def netStatus (s : Nat) : Request → NetResponse :=
  fun _ => NetResponse.status s

/-- A network oracle on which every request fails at the transport layer. -/
def netDown : Request → NetResponse :=
  fun _ => NetResponse.transportFailure

/-- On a miss or a stale entry, `check_platform` behaves as its try
block. -/
theorem check_platform_of_missOrStale (net : Request → NetResponse)
    (cache : Cache) (current_time : Int) (platform username : String)
    (h : cacheMissOrStale cache current_time (platform, username)) :
    check_platform net cache current_time platform username
      = check_platform_try net cache current_time platform username := by
  rcases hc : cache (platform, username) with _ | ⟨ct, b⟩
  · simp [check_platform, hc]
  · simp only [cacheMissOrStale, hc] at h
    simp [check_platform, hc, not_lt.mpr h]

/-- On any configured platform the try block issues exactly one request;
answered with a status it caches and returns a boolean result, on a
transport failure it returns `none` and leaves the cache alone. -/
theorem check_platform_try_cases (net : Request → NetResponse) (cache : Cache)
    (t : Int) (p u : String) (hconf : (platforms.lookup p).isSome) :
    ∃ req : Request,
      (∀ s, net req = NetResponse.status s →
        ∃ b : Bool, check_platform_try net cache t p u
          = (Except.ok (some b), Cache.set cache (p, u) (t, b), [req])) ∧
      (net req = NetResponse.transportFailure →
        check_platform_try net cache t p u = (Except.ok none, cache, [req])) := by
  by_cases hg : p = "github"
  · subst hg
    refine ⟨⟨"https://api.github.com/users/" ++ u, true⟩, fun s hn => ?_, fun hn => ?_⟩
    · exact ⟨s == 404, by simp [check_platform_try, hn]⟩
    · simp [check_platform_try, hn]
  · by_cases hi : p = "instagram"
    · subst hi
      refine ⟨⟨"https://www.instagram.com/" ++ u ++ "/", false⟩,
        fun s hn => ?_, fun hn => ?_⟩
      · exact ⟨s == 404 || s == 302, by simp [check_platform_try, hn]⟩
      · simp [check_platform_try, hn]
    · rcases hl : platforms.lookup p with _ | data
      · rw [hl] at hconf; simp at hconf
      · refine ⟨⟨data.url ++ u, false⟩, fun s hn => ?_, fun hn => ?_⟩
        · exact ⟨s == 404, by simp [check_platform_try, hg, hi, hl, hn]⟩
        · simp [check_platform_try, hg, hi, hl, hn]

/-- The try block issues at most one request, configured platform or
not. -/
theorem check_platform_try_len_le_one (net : Request → NetResponse)
    (cache : Cache) (t : Int) (p u : String) :
    ((check_platform_try net cache t p u).2.2).length ≤ 1 := by
  by_cases hg : p = "github"
  · subst hg
    rcases hn : net ⟨"https://api.github.com/users/" ++ u, true⟩ with s | _ <;>
      simp [check_platform_try, hn]
  · by_cases hi : p = "instagram"
    · subst hi
      rcases hn : net ⟨"https://www.instagram.com/" ++ u ++ "/", false⟩ with s | _ <;>
        simp [check_platform_try, hn]
    · rcases hl : platforms.lookup p with _ | data
      · simp [check_platform_try, hg, hi, hl]
      · rcases hn : net ⟨data.url ++ u, false⟩ with s | _ <;>
          simp [check_platform_try, hg, hi, hl, hn]

/-- The try block never touches a cache entry other than the one keyed
by `(platform, username)`. -/
theorem check_platform_try_other_key (net : Request → NetResponse)
    (cache : Cache) (t : Int) (p u : String) (k : String × String)
    (hk : k ≠ (p, u)) :
    (check_platform_try net cache t p u).2.1 k = cache k := by
  by_cases hg : p = "github"
  · subst hg
    rcases hn : net ⟨"https://api.github.com/users/" ++ u, true⟩ with s | _ <;>
      simp [check_platform_try, hn, Cache.set, hk]
  · by_cases hi : p = "instagram"
    · subst hi
      rcases hn : net ⟨"https://www.instagram.com/" ++ u ++ "/", false⟩ with s | _ <;>
        simp [check_platform_try, hn, Cache.set, hk]
    · rcases hl : platforms.lookup p with _ | data
      · simp [check_platform_try, hg, hi, hl]
      · rcases hn : net ⟨data.url ++ u, false⟩ with s | _ <;>
          simp [check_platform_try, hg, hi, hl, hn, Cache.set, hk]

/-- When the try block returns a definite availability result, it has
cached that result under the call's key with the call's timestamp, and
it issued a request. -/
theorem check_platform_try_ok_some (net : Request → NetResponse)
    (cache : Cache) (t : Int) (p u : String) (b : Bool)
    (h : (check_platform_try net cache t p u).1 = Except.ok (some b)) :
    (check_platform_try net cache t p u).2.1 (p, u) = some (t, b) ∧
    (check_platform_try net cache t p u).2.2 ≠ [] := by
  by_cases hg : p = "github"
  · subst hg
    rcases hn : net ⟨"https://api.github.com/users/" ++ u, true⟩ with s | _ <;>
      simp_all [check_platform_try, hn, Cache.set]
  · by_cases hi : p = "instagram"
    · subst hi
      rcases hn : net ⟨"https://www.instagram.com/" ++ u ++ "/", false⟩ with s | _ <;>
        simp_all [check_platform_try, hn, Cache.set]
    · rcases hl : platforms.lookup p with _ | data
      · simp_all [check_platform_try, hg, hi, hl]
      · rcases hn : net ⟨data.url ++ u, false⟩ with s | _ <;>
          simp_all [check_platform_try, hg, hi, hl, hn, Cache.set]

/-- `check_platform` issues at most one request on any input. -/
theorem check_platform_len_le_one (net : Request → NetResponse)
    (cache : Cache) (t : Int) (p u : String) :
    ((check_platform net cache t p u).2.2).length ≤ 1 := by
  rcases hc : cache (p, u) with _ | ⟨ct, a⟩
  · simpa [check_platform, hc] using check_platform_try_len_le_one net cache t p u
  · by_cases hfresh : t - ct < cache_ttl
    · simp [check_platform, hc, hfresh]
    · simpa [check_platform, hc, hfresh] using
        check_platform_try_len_le_one net cache t p u

/-- Claim C1: if a cache entry exists for `(platform, username)` and
`current_time - entry.timestamp < cache_ttl`, then `check_platform`
returns the cached result, leaves the cache unchanged and issues no
outbound request. -/
theorem check_platform_cache_hit (net : Request → NetResponse)
    (cache : Cache) (current_time cached_time : Int)
    (platform username : String) (available : Bool)
    (_hconf : (platforms.lookup platform).isSome)
    (hc : cache (platform, username) = some (cached_time, available))
    (hfresh : current_time - cached_time < cache_ttl) :
    check_platform net cache current_time platform username
      = (Except.ok (some available), cache, []) := by
  simp [check_platform, hc, hfresh]

/-- Witness for C1: a twitter entry cached at time 0 and read at time
100 is served from the cache. -/
theorem check_platform_cache_hit_witness :
    (platforms.lookup "twitter").isSome = true ∧
    (Cache.set emptyCache ("twitter", "alice") (0, true)) ("twitter", "alice")
      = some (0, true) ∧
    (100 : Int) - 0 < cache_ttl ∧
    check_platform (netStatus 200)
        (Cache.set emptyCache ("twitter", "alice") (0, true)) 100 "twitter" "alice"
      = (Except.ok (some true),
         Cache.set emptyCache ("twitter", "alice") (0, true), []) :=
  ⟨by decide, by decide, by decide,
   check_platform_cache_hit (netStatus 200)
     (Cache.set emptyCache ("twitter", "alice") (0, true)) 100 0
     "twitter" "alice" true (by decide) (by decide) (by decide)⟩

/-- Claim C2: once the TTL has elapsed since the cached entry's
timestamp, a call on a configured platform issues exactly one fresh
outbound request, whatever boolean was cached. -/
theorem check_platform_stale_refetches (net : Request → NetResponse)
    (cache : Cache) (t ct : Int) (p u : String) (b : Bool)
    (hconf : (platforms.lookup p).isSome)
    (hc : cache (p, u) = some (ct, b))
    (hstale : cache_ttl ≤ t - ct) :
    ((check_platform net cache t p u).2.2).length = 1 := by
  have hmiss : cacheMissOrStale cache t (p, u) := by
    simp only [cacheMissOrStale, hc]; exact hstale
  rw [check_platform_of_missOrStale net cache t p u hmiss]
  obtain ⟨req, hs, hf⟩ := check_platform_try_cases net cache t p u hconf
  rcases hn : net req with s | _
  · obtain ⟨b', hb⟩ := hs s hn
    rw [hb]
    rfl
  · rw [hf hn]
    rfl

/-- Witness for C2: a reddit entry cached at time 0, looked up again at
time 3600, triggers one outbound request. -/
theorem check_platform_stale_refetches_witness :
    (platforms.lookup "reddit").isSome = true ∧
    (Cache.set emptyCache ("reddit", "carol") (0, false)) ("reddit", "carol")
      = some (0, false) ∧
    cache_ttl ≤ (3600 : Int) - 0 ∧
    ((check_platform (netStatus 404)
        (Cache.set emptyCache ("reddit", "carol") (0, false))
        3600 "reddit" "carol").2.2).length = 1 :=
  ⟨by decide, by decide, by decide,
   check_platform_stale_refetches (netStatus 404)
     (Cache.set emptyCache ("reddit", "carol") (0, false)) 3600 0
     "reddit" "carol" false (by decide) (by decide) (by decide)⟩

/-- Claim C3: on a configured platform, when the cache does not serve
the call and the transport fails, `check_platform` returns `none`
(Unknown) rather than an exception, and the cache is exactly what it
was before the call. -/
theorem check_platform_transport_failure (net : Request → NetResponse)
    (cache : Cache) (t : Int) (p u : String)
    (hconf : (platforms.lookup p).isSome)
    (hmiss : cacheMissOrStale cache t (p, u))
    (hnet : ∀ r, net r = NetResponse.transportFailure) :
    (check_platform net cache t p u).1 = Except.ok none ∧
    (check_platform net cache t p u).2.1 = cache := by
  rw [check_platform_of_missOrStale net cache t p u hmiss]
  obtain ⟨req, _, hf⟩ := check_platform_try_cases net cache t p u hconf
  rw [hf (hnet req)]
  exact ⟨rfl, rfl⟩

/-- Witness for C3: with the transport down, a facebook lookup on an
empty cache returns Unknown and leaves the cache empty. -/
theorem check_platform_transport_failure_witness :
    (platforms.lookup "facebook").isSome = true ∧
    cacheMissOrStale emptyCache 0 ("facebook", "henry") ∧
    (∀ r, netDown r = NetResponse.transportFailure) ∧
    (check_platform netDown emptyCache 0 "facebook" "henry").1 = Except.ok none ∧
    (check_platform netDown emptyCache 0 "facebook" "henry").2.1 = emptyCache :=
  ⟨by decide, by simp [cacheMissOrStale, emptyCache], fun _ => rfl,
   check_platform_transport_failure netDown emptyCache 0 "facebook" "henry"
     (by decide) (by simp [cacheMissOrStale, emptyCache]) (fun _ => rfl)⟩

/-- Claim C4: on a cache miss for a default-rule platform (configured,
neither github nor instagram), `check_platform` requests the platform's
profile URL with the username appended, with redirects not followed, and
the result is available exactly for status 404, taken for any other
status. -/
theorem check_platform_default_rule (net : Request → NetResponse)
    (cache : Cache) (t : Int) (p u : String) (data : PlatformData) (s : Nat)
    (hg : p ≠ "github") (hi : p ≠ "instagram")
    (hl : platforms.lookup p = some data)
    (hmiss : cacheMissOrStale cache t (p, u))
    (hn : net ⟨data.url ++ u, false⟩ = NetResponse.status s) :
    check_platform net cache t p u
      = (Except.ok (some (s == 404)),
         Cache.set cache (p, u) (t, s == 404),
         [⟨data.url ++ u, false⟩]) := by
  rw [check_platform_of_missOrStale net cache t p u hmiss]
  simp [check_platform_try, hg, hi, hl, hn]

/-- Witness for C4: a twitter lookup on an empty cache that sees status
404 requests the twitter profile URL without redirects and reports
available. -/
theorem check_platform_default_rule_witness :
    ("twitter" : String) ≠ "github" ∧
    ("twitter" : String) ≠ "instagram" ∧
    platforms.lookup "twitter"
      = some ⟨"https://twitter.com/", "^[A-Za-z0-9_]\x7b1,15\x7d$"⟩ ∧
    cacheMissOrStale emptyCache 5 ("twitter", "bob") ∧
    netStatus 404 ⟨"https://twitter.com/" ++ "bob", false⟩
      = NetResponse.status 404 ∧
    check_platform (netStatus 404) emptyCache 5 "twitter" "bob"
      = (Except.ok (some true),
         Cache.set emptyCache ("twitter", "bob") (5, true),
         [⟨"https://twitter.com/" ++ "bob", false⟩]) :=
  ⟨by decide, by decide, by decide, by simp [cacheMissOrStale, emptyCache], rfl,
   check_platform_default_rule (netStatus 404) emptyCache 5 "twitter" "bob"
     ⟨"https://twitter.com/", "^[A-Za-z0-9_]\x7b1,15\x7d$"⟩ 404
     (by decide) (by decide) (by decide)
     (by simp [cacheMissOrStale, emptyCache]) rfl⟩

/-- Claim C5: on a cache miss for github, `check_platform` queries the
dedicated user-lookup API endpoint rather than the profile page, and the
result is available exactly for status 404, taken otherwise. -/
theorem check_platform_github_rule (net : Request → NetResponse)
    (cache : Cache) (t : Int) (u : String) (s : Nat)
    (hmiss : cacheMissOrStale cache t ("github", u))
    (hn : net ⟨"https://api.github.com/users/" ++ u, true⟩
      = NetResponse.status s) :
    check_platform net cache t "github" u
      = (Except.ok (some (s == 404)),
         Cache.set cache ("github", u) (t, s == 404),
         [⟨"https://api.github.com/users/" ++ u, true⟩]) := by
  rw [check_platform_of_missOrStale net cache t "github" u hmiss]
  simp [check_platform_try, hn]

/-- Witness for C5: a github lookup on an empty cache that sees status
200 queries the API endpoint and reports taken. -/
theorem check_platform_github_rule_witness :
    cacheMissOrStale emptyCache 7 ("github", "dave") ∧
    netStatus 200 ⟨"https://api.github.com/users/" ++ "dave", true⟩
      = NetResponse.status 200 ∧
    check_platform (netStatus 200) emptyCache 7 "github" "dave"
      = (Except.ok (some false),
         Cache.set emptyCache ("github", "dave") (7, false),
         [⟨"https://api.github.com/users/" ++ "dave", true⟩]) :=
  ⟨by simp [cacheMissOrStale, emptyCache], rfl,
   check_platform_github_rule (netStatus 200) emptyCache 7 "dave" 200
     (by simp [cacheMissOrStale, emptyCache]) rfl⟩

/-- Claim C6: on a cache miss for instagram, `check_platform` requests
the profile URL without following redirects, and the result is available
exactly for status 404 or 302, taken for every other status. -/
theorem check_platform_instagram_rule (net : Request → NetResponse)
    (cache : Cache) (t : Int) (u : String) (s : Nat)
    (hmiss : cacheMissOrStale cache t ("instagram", u))
    (hn : net ⟨"https://www.instagram.com/" ++ u ++ "/", false⟩
      = NetResponse.status s) :
    check_platform net cache t "instagram" u
      = (Except.ok (some (s == 404 || s == 302)),
         Cache.set cache ("instagram", u) (t, s == 404 || s == 302),
         [⟨"https://www.instagram.com/" ++ u ++ "/", false⟩]) := by
  rw [check_platform_of_missOrStale net cache t "instagram" u hmiss]
  simp [check_platform_try, hn]

/-- Witness for C6: an instagram lookup on an empty cache that sees a
302 redirect reports available, with redirects not followed. -/
theorem check_platform_instagram_rule_witness :
    cacheMissOrStale emptyCache 9 ("instagram", "erin") ∧
    netStatus 302 ⟨"https://www.instagram.com/" ++ "erin" ++ "/", false⟩
      = NetResponse.status 302 ∧
    check_platform (netStatus 302) emptyCache 9 "instagram" "erin"
      = (Except.ok (some true),
         Cache.set emptyCache ("instagram", "erin") (9, true),
         [⟨"https://www.instagram.com/" ++ "erin" ++ "/", false⟩]) :=
  ⟨by simp [cacheMissOrStale, emptyCache], rfl, by
    have := check_platform_instagram_rule (netStatus 302) emptyCache 9 "erin" 302
      (by simp [cacheMissOrStale, emptyCache]) rfl
    simpa using this⟩

/-- Claim C7: on a configured platform, when the cache does not serve
the call and the outbound lookup succeeds with some status, the call
stores `(current_time, result)` under its key — overwriting any prior
entry — and returns that same result. -/
theorem check_platform_success_caches (net : Request → NetResponse)
    (cache : Cache) (t : Int) (p u : String)
    (hconf : (platforms.lookup p).isSome)
    (hmiss : cacheMissOrStale cache t (p, u))
    (hnet : ∀ r, ∃ s, net r = NetResponse.status s) :
    ∃ b : Bool,
      (check_platform net cache t p u).1 = Except.ok (some b) ∧
      (check_platform net cache t p u).2.1 = Cache.set cache (p, u) (t, b) := by
  rw [check_platform_of_missOrStale net cache t p u hmiss]
  obtain ⟨req, hs, _⟩ := check_platform_try_cases net cache t p u hconf
  obtain ⟨s, hn⟩ := hnet req
  obtain ⟨b, hb⟩ := hs s hn
  exact ⟨b, by rw [hb], by rw [hb]⟩

/-- Witness for C7: a twitch lookup on a cache holding a stale entry
for the key overwrites it with the fresh result and returns it. -/
theorem check_platform_success_caches_witness :
    (platforms.lookup "twitch").isSome = true ∧
    cacheMissOrStale (Cache.set emptyCache ("twitch", "frank") (0, true))
      4000 ("twitch", "frank") ∧
    (∀ r, ∃ s, netStatus 200 r = NetResponse.status s) ∧
    ∃ b : Bool,
      (check_platform (netStatus 200)
        (Cache.set emptyCache ("twitch", "frank") (0, true))
        4000 "twitch" "frank").1 = Except.ok (some b) ∧
      (check_platform (netStatus 200)
        (Cache.set emptyCache ("twitch", "frank") (0, true))
        4000 "twitch" "frank").2.1
        = Cache.set (Cache.set emptyCache ("twitch", "frank") (0, true))
            ("twitch", "frank") (4000, b) :=
  ⟨by decide, by simp [cacheMissOrStale, Cache.set, emptyCache, cache_ttl],
   fun _ => ⟨200, rfl⟩,
   check_platform_success_caches (netStatus 200)
     (Cache.set emptyCache ("twitch", "frank") (0, true)) 4000 "twitch" "frank"
     (by decide) (by simp [cacheMissOrStale, Cache.set, emptyCache, cache_ttl])
     (fun _ => ⟨200, rfl⟩)⟩

/-- When the first of two consecutive calls bypasses the cache, succeeds
with a definite result, and the second call comes within the TTL, the
pair issues at most one request and the second call is a cache hit
returning the first call's result. -/
theorem check_platform_two_calls_aux (net : Request → NetResponse)
    (cache : Cache) (t1 t2 : Int) (p u : String) (b : Bool)
    (hmiss : cacheMissOrStale cache t1 (p, u))
    (h1 : (check_platform net cache t1 p u).1 = Except.ok (some b))
    (hwin : t2 - t1 < cache_ttl) :
    ((check_platform net cache t1 p u).2.2).length
      + ((check_platform net (check_platform net cache t1 p u).2.1
          t2 p u).2.2).length ≤ 1 ∧
    ((check_platform net cache t1 p u).2.2 ≠ [] →
      (check_platform net (check_platform net cache t1 p u).2.1 t2 p u).1
        = Except.ok (some b) ∧
      (check_platform net (check_platform net cache t1 p u).2.1 t2 p u).2.2
        = []) := by
  have heq := check_platform_of_missOrStale net cache t1 p u hmiss
  rw [heq] at h1 ⊢
  obtain ⟨hkey, _⟩ := check_platform_try_ok_some net cache t1 p u b h1
  have h2 : check_platform net (check_platform_try net cache t1 p u).2.1 t2 p u
      = (Except.ok (some b), (check_platform_try net cache t1 p u).2.1, []) := by
    simp [check_platform, hkey, hwin]
  rw [h2]
  refine ⟨?_, fun _ => ⟨rfl, rfl⟩⟩
  simpa using check_platform_try_len_le_one net cache t1 p u

/-- Claim C8: two consecutive calls for the same `(platform, username)`,
the second within the TTL of the first, issue at most one outbound
request in total when the first call's result is a definite success;
moreover if the first call did go to the network, the second call
returns the first call's result with no network access. -/
theorem check_platform_two_calls (net : Request → NetResponse)
    (cache : Cache) (t1 t2 : Int) (p u : String) (b : Bool)
    (h1 : (check_platform net cache t1 p u).1 = Except.ok (some b))
    (hwin : t2 - t1 < cache_ttl) :
    ((check_platform net cache t1 p u).2.2).length
      + ((check_platform net (check_platform net cache t1 p u).2.1
          t2 p u).2.2).length ≤ 1 ∧
    ((check_platform net cache t1 p u).2.2 ≠ [] →
      (check_platform net (check_platform net cache t1 p u).2.1 t2 p u).1
        = Except.ok (some b) ∧
      (check_platform net (check_platform net cache t1 p u).2.1 t2 p u).2.2
        = []) := by
  rcases hc : cache (p, u) with _ | ⟨ct, a⟩
  · exact check_platform_two_calls_aux net cache t1 t2 p u b
      (by simp [cacheMissOrStale, hc]) h1 hwin
  · by_cases hfresh : t1 - ct < cache_ttl
    · have h1eq : check_platform net cache t1 p u
          = (Except.ok (some a), cache, []) := by
        simp [check_platform, hc, hfresh]
      rw [h1eq]
      refine ⟨?_, fun hne => absurd rfl hne⟩
      simpa using check_platform_len_le_one net cache t2 p u
    · exact check_platform_two_calls_aux net cache t1 t2 p u b
        (by simp only [cacheMissOrStale, hc]; exact not_lt.mp hfresh) h1 hwin

/-- Witness for C8: a tiktok lookup at time 0 on an empty cache (one
request, available), repeated at time 10, is served from the cache. -/
theorem check_platform_two_calls_witness :
    (check_platform (netStatus 404) emptyCache 0 "tiktok" "gina").1
      = Except.ok (some true) ∧
    (10 : Int) - 0 < cache_ttl ∧
    (((check_platform (netStatus 404) emptyCache 0 "tiktok" "gina").2.2).length
      + ((check_platform (netStatus 404)
          (check_platform (netStatus 404) emptyCache 0 "tiktok" "gina").2.1
          10 "tiktok" "gina").2.2).length ≤ 1 ∧
    ((check_platform (netStatus 404) emptyCache 0 "tiktok" "gina").2.2 ≠ [] →
      (check_platform (netStatus 404)
        (check_platform (netStatus 404) emptyCache 0 "tiktok" "gina").2.1
        10 "tiktok" "gina").1 = Except.ok (some true) ∧
      (check_platform (netStatus 404)
        (check_platform (netStatus 404) emptyCache 0 "tiktok" "gina").2.1
        10 "tiktok" "gina").2.2 = [])) :=
  ⟨by rfl, by decide,
   check_platform_two_calls (netStatus 404) emptyCache 0 10 "tiktok" "gina"
     true (by rfl) (by decide)⟩

/-- Claim C9: a call to `check_platform` leaves every cache entry other
than the one keyed by `(platform, username)` unchanged, and issues at
most one outbound request — zero on a cache hit, and the bound needs no
assumption on the platform, the cache or the network. -/
theorem check_platform_frame (net : Request → NetResponse) (cache : Cache)
    (t : Int) (p u : String) (k : String × String) (hk : k ≠ (p, u)) :
    (check_platform net cache t p u).2.1 k = cache k ∧
    ((check_platform net cache t p u).2.2).length ≤ 1 := by
  refine ⟨?_, check_platform_len_le_one net cache t p u⟩
  rcases hc : cache (p, u) with _ | ⟨ct, a⟩
  · simpa [check_platform, hc] using
      check_platform_try_other_key net cache t p u k hk
  · by_cases hfresh : t - ct < cache_ttl
    · simp [check_platform, hc, hfresh]
    · simpa [check_platform, hc, hfresh] using
        check_platform_try_other_key net cache t p u k hk

/-- Witness for C9: a facebook lookup does not touch the linkedin slot
of the cache and issues at most one request. -/
theorem check_platform_frame_witness :
    (("linkedin", "victor") : String × String) ≠ ("facebook", "victor") ∧
    ((check_platform (netStatus 404) emptyCache 0 "facebook" "victor").2.1
        ("linkedin", "victor") = emptyCache ("linkedin", "victor") ∧
      ((check_platform (netStatus 404) emptyCache 0 "facebook" "victor").2.2).length
        ≤ 1) :=
  ⟨by decide,
   check_platform_frame (netStatus 404) emptyCache 0 "facebook" "victor"
     ("linkedin", "victor") (by decide)⟩

/-- Claim C10: on a cache miss for a platform outside the configured
table (and other than the hard-coded github and instagram branches),
the table lookup raises a `KeyError` that escapes `check_platform`
instead of yielding Unknown, with no request issued and the cache
unchanged. -/
theorem check_platform_unknown_platform (net : Request → NetResponse)
    (cache : Cache) (t : Int) (p u : String)
    (hg : p ≠ "github") (hi : p ≠ "instagram")
    (hl : platforms.lookup p = none)
    (hmiss : cacheMissOrStale cache t (p, u)) :
    check_platform net cache t p u = (Except.error (), cache, []) := by
  rw [check_platform_of_missOrStale net cache t p u hmiss]
  simp [check_platform_try, hg, hi, hl]

/-- Witness for C10: a lookup for the unconfigured platform name
myspace escapes with the `KeyError`. -/
theorem check_platform_unknown_platform_witness :
    ("myspace" : String) ≠ "github" ∧
    ("myspace" : String) ≠ "instagram" ∧
    platforms.lookup "myspace" = none ∧
    cacheMissOrStale emptyCache 0 ("myspace", "tom") ∧
    check_platform (netStatus 404) emptyCache 0 "myspace" "tom"
      = (Except.error (), emptyCache, []) :=
  ⟨by decide, by decide, by decide, by simp [cacheMissOrStale, emptyCache],
   check_platform_unknown_platform (netStatus 404) emptyCache 0 "myspace" "tom"
     (by decide) (by decide) (by decide)
     (by simp [cacheMissOrStale, emptyCache])⟩

end Tricord
